import Mathlib

/-!
Verification of the gateway ingestion layer of khl.py (`src/khl/receiver.py`).

The embedding models the two receivers' message-processing logic:

* `WebsocketReceiver.processFrame` — the body of the `async for raw in ws_conn`
  loop of `WebsocketReceiver.start` (receiver.py lines 85-98): decompress/decode
  a frame, drop envelopes whose signal is not 0, otherwise record the sequence
  number and enqueue the data field.  All exceptions inside the loop body are
  caught and the loop continues, so a failing frame leaves the state unchanged
  (except for state already mutated before the raise).
* `WebsocketReceiver.heartbeat` — the message `{'s': 2, 'sn': self._NEWEST_SN}`
  sent by the heartbeat loop (receiver.py line 59).
* `WebhookReceiver.isDup` — `WebhookReceiver._is_dup` (receiver.py lines
  114-125), the dedup ledger keyed by sequence number with a 600 second window.
* `WebhookReceiver.on_recv` — the per-request handler registered by
  `WebhookReceiver.start` (receiver.py lines 128-152).

Python dictionaries decoded from the wire may lack any key, and `pkg['k']` on a
missing key raises `KeyError`; every field read by the code is therefore an
`Option`, and a `none` field read through subscript notation models the raise.
In the websocket loop the raise is caught by the enclosing `try`; in the
webhook handler only the read/decompress/decode block is inside a `try`, so a
later raise escapes to the HTTP runtime (modelled as `WhResponse.error`).
`time.time()` values are modelled as rationals.
-/

/-- The inner data dictionary `pkg['d']`.  Only the keys the ingestion layer
reads are modelled; each is optional because the decoded dictionary may lack
it.  The webhook path enqueues this inner dictionary itself. -/
structure PkgData where
  verify_token : Option String
  type : Option Int
  channel_type : Option String
  challenge : Option String
deriving DecidableEq

/-- A decoded wire envelope (the dictionary returned by `cert.decode_raw`):
signal `s`, sequence number `sn`, and payload `d`, each possibly missing. -/
structure Pkg where
  s : Option Int
  sn : Option Int
  d : Option PkgData
deriving DecidableEq

/-- Outcome of the read/decompress/`decode_raw` block: the block raised
(`fail`, caught in both receivers), produced a falsy value (`emptyPkg`, the
`if not pkg` branch of the webhook handler), or produced a non-empty
dictionary (`ok`). -/
inductive DecodeResult where
  | fail
  | emptyPkg
  | ok (pkg : Pkg)
deriving DecidableEq

namespace WebsocketReceiver

/-- Mutable state of a `WebsocketReceiver`: `_NEWEST_SN` and the contents of
`pkg_queue` (oldest first). -/
structure WsState where
  newestSN : Int
  queue : List PkgData
deriving DecidableEq

/-- One iteration of the receive loop of `WebsocketReceiver.start` (lines
86-98).  `frame = none` models a frame whose decompress/decode raised.  The
`try/except` catches every exception and continues, so missing keys leave the
loop; note that `self._NEWEST_SN = pkg['sn']` executes before `pkg['d']` is
evaluated, so a packet with `sn` but no `d` still updates `_NEWEST_SN`. -/
def processFrame (st : WsState) (frame : Option Pkg) : WsState :=
  match frame with
  | none => st
  | some pkg =>
    match pkg.s with
    | none => st
    | some sig =>
      if sig ≠ 0 then st
      else
        match pkg.sn with
        | none => st
        | some sn =>
          match pkg.d with
          | none => { st with newestSN := sn }
          | some d => { newestSN := sn, queue := st.queue ++ [d] }

/-- The receive loop over a whole sequence of inbound frames. -/
def runFrames (st : WsState) (frames : List (Option Pkg)) : WsState :=
  frames.foldl processFrame st

/-- An outbound heartbeat message. -/
structure HeartbeatMsg where
  s : Int
  sn : Int
deriving DecidableEq

/-- The message sent by `WebsocketReceiver.heartbeat` every 26 seconds
(line 59): `{'s': 2, 'sn': self._NEWEST_SN}`. -/
def heartbeat (st : WsState) : HeartbeatMsg :=
  { s := 2, sn := st.newestSN }

/-- The data that one frame contributes to the queue: `some d` exactly when
the frame decodes, has signal 0, and has both `sn` and `d` keys. -/
def frameData (frame : Option Pkg) : Option PkgData :=
  match frame with
  | none => none
  | some pkg =>
    match pkg.s with
    | none => none
    | some sig =>
      if sig ≠ 0 then none
      else
        match pkg.sn with
        | none => none
        | some _ => pkg.d

lemma processFrame_queue (st : WsState) (f : Option Pkg) :
    (processFrame st f).queue = st.queue ++ (frameData f).toList := by
  rcases f with _ | ⟨s, sn, d⟩
  · simp [processFrame, frameData]
  · rcases s with _ | sig
    · simp [processFrame, frameData]
    · rcases sn with _ | sn <;> rcases d with _ | d <;>
        by_cases h : sig = 0 <;> simp [processFrame, frameData, h]

lemma runFrames_nil (st : WsState) : runFrames st [] = st := rfl

lemma runFrames_cons (st : WsState) (f : Option Pkg) (fs : List (Option Pkg)) :
    runFrames st (f :: fs) = runFrames (processFrame st f) fs := rfl

lemma runFrames_queue (frames : List (Option Pkg)) : ∀ st : WsState,
    (runFrames st frames).queue = st.queue ++ frames.filterMap frameData := by
  induction frames with
  | nil => intro st; simp [runFrames]
  | cons f fs ih =>
    intro st
    rw [runFrames_cons, ih, processFrame_queue, List.filterMap_cons]
    cases h : frameData f <;> simp [h]

lemma frameData_some {frame : Option Pkg} {d : PkgData}
    (h : frameData frame = some d) :
    ∃ pkg, frame = some pkg ∧ pkg.s = some 0 ∧ pkg.d = some d := by
  rcases frame with _ | ⟨s, sn, dd⟩
  · simp [frameData] at h
  · rcases s with _ | sig
    · simp [frameData] at h
    · by_cases hs : sig = 0
      · subst hs
        rcases sn with _ | sn
        · simp [frameData] at h
        · exact ⟨⟨some 0, some sn, dd⟩, rfl, rfl, by simpa [frameData] using h⟩
      · simp [frameData, hs] at h

lemma processFrame_nonzero (st : WsState) (pkg : Pkg) (sig : Int)
    (hs : pkg.s = some sig) (hnz : sig ≠ 0) :
    processFrame st (some pkg) = st := by
  rcases pkg with ⟨s, sn, d⟩
  obtain rfl : s = some sig := hs
  simp [processFrame, hnz]

end WebsocketReceiver

namespace WebhookReceiver

/-- The dedup ledger `sn_dup_map`: a finite map from sequence number to the
`time.time()` value of the last non-duplicate receipt, modelled as an
association list with at most one entry per key. -/
abbrev Ledger := List (Int × ℚ)

/-- Dictionary lookup `m[k]` / `k in m.keys()`. -/
def ledgerLookup (m : Ledger) (k : Int) : Option ℚ :=
  match m with
  | [] => none
  | (k₀, v₀) :: rest => if k₀ = k then some v₀ else ledgerLookup rest k

/-- Dictionary assignment `m[k] = v`. -/
def setEntry (m : Ledger) (k : Int) (v : ℚ) : Ledger :=
  match m with
  | [] => [(k, v)]
  | (k₀, v₀) :: rest =>
    if k₀ = k then (k, v) :: rest else (k₀, v₀) :: setEntry rest k v

/-- `WebhookReceiver._is_dup` (lines 114-125).  `current` is the value of
`time.time()` at the call.  Returns the boolean result and the ledger after the
call: `req.get('sn', None)` missing returns `False` untouched; a key seen
within the last 600 seconds returns `True` untouched; otherwise the entry is
inserted/refreshed to `current` and the result is `False`. -/
def isDup (ledger : Ledger) (current : ℚ) (req : Pkg) : Bool × Ledger :=
  match req.sn with
  | none => (false, ledger)
  | some sn =>
    match ledgerLookup ledger sn with
    | some t =>
      if current - t ≤ 600 then (true, ledger)
      else (false, setEntry ledger sn current)
    | none => (false, setEntry ledger sn current)

/-- The handler's HTTP reply: `web.Response()` (empty 200), the challenge echo
`web.json_response({'challenge': c})`, or an exception escaping the handler to
the HTTP runtime. -/
inductive WhResponse where
  | empty
  | challengeResp (c : String)
  | error
deriving DecidableEq

/-- Mutable state of a `WebhookReceiver`: `sn_dup_map` and the contents of
`pkg_queue` (oldest first). -/
structure WhState where
  ledger : Ledger
  queue : List PkgData
deriving DecidableEq

/-- The request handler `on_recv` defined inside `WebhookReceiver.start`
(lines 128-152).  `secret` is `self._cert.verify_token`, `now` the value of
`time.time()` during `_is_dup`, and `input` the outcome of the
read/decompress/decode block (the only part inside a `try`).  Subscript reads
after that block (`pkg['d']`, `['verify_token']`, `['s']`, `['type']`,
`['channel_type']`, `['challenge']`) raise `KeyError` on a missing key, which
escapes the handler (`WhResponse.error`); `and` short-circuits, so
`pkg['channel_type']` is only read when `pkg['type'] == 255`. -/
def on_recv (secret : String) (st : WhState) (now : ℚ) (input : DecodeResult) :
    WhResponse × WhState :=
  match input with
  | .fail => (.empty, st)
  | .emptyPkg => (.empty, st)
  | .ok pkg =>
    match pkg.d with
    | none => (.error, st)
    | some inner =>
      match inner.verify_token with
      | none => (.error, st)
      | some tok =>
        if tok ≠ secret then (.empty, st)
        else
          let r := isDup st.ledger now pkg
          let st' : WhState := { st with ledger := r.2 }
          if r.1 then (.empty, st')
          else
            match pkg.s with
            | none => (.error, st')
            | some sig =>
              if sig = 0 then
                match inner.type with
                | none => (.error, st')
                | some ty =>
                  if ty = 255 then
                    match inner.channel_type with
                    | none => (.error, st')
                    | some ct =>
                      if ct = "WEBHOOK_CHALLENGE" then
                        match inner.challenge with
                        | none => (.error, st')
                        | some c => (.challengeResp c, st')
                      else (.empty, { st' with queue := st'.queue ++ [inner] })
                  else (.empty, { st' with queue := st'.queue ++ [inner] })
              else (.empty, st')

/-- The handler applied to a whole sequence of deliveries, each with its
`time.time()` value and decode outcome; responses are sent to the platform and
only the state is threaded. -/
def runDeliveries (secret : String) (st : WhState) (ds : List (ℚ × DecodeResult)) :
    WhState :=
  ds.foldl (fun acc p => (on_recv secret acc p.1 p.2).2) st

lemma runDeliveries_nil (secret : String) (st : WhState) :
    runDeliveries secret st [] = st := rfl

lemma runDeliveries_cons (secret : String) (st : WhState) (p : ℚ × DecodeResult)
    (ps : List (ℚ × DecodeResult)) :
    runDeliveries secret st (p :: ps)
      = runDeliveries secret (on_recv secret st p.1 p.2).2 ps := rfl

lemma ledgerLookup_setEntry (m : Ledger) (k k₁ : Int) (v : ℚ) :
    ledgerLookup (setEntry m k v) k₁ = if k = k₁ then some v else ledgerLookup m k₁ := by
  induction m with
  | nil => simp [setEntry, ledgerLookup]
  | cons e rest ih =>
    rcases e with ⟨k₀, v₀⟩
    by_cases h : k₀ = k
    · subst h
      by_cases h₁ : k₀ = k₁ <;> simp [setEntry, ledgerLookup, h₁]
    · by_cases h₁ : k₀ = k₁
      · subst h₁
        simp [setEntry, h, ledgerLookup]
        rw [if_neg fun hk => h hk.symm]
      · simp [setEntry, h, ledgerLookup, h₁, ih]

/-- When `_is_dup` answers `True` it returns before the `self.sn_dup_map[sn] =
current` assignment, so the ledger is untouched. -/
lemma isDup_true_ledger {ledger : Ledger} {current : ℚ} {req : Pkg}
    (h : (isDup ledger current req).1 = true) :
    (isDup ledger current req).2 = ledger := by
  rcases hsn : req.sn with _ | sn
  · simp [isDup, hsn] at h
  · rcases hl : ledgerLookup ledger sn with _ | t
    · simp [isDup, hsn, hl] at h
    · by_cases hle : current - t ≤ 600
      · simp [isDup, hsn, hl, hle]
      · simp [isDup, hsn, hl, hle] at h

/-- Each handled request either leaves the queue unchanged or appends exactly
the inner data of an envelope with signal 0. -/
lemma on_recv_queue_step (secret : String) (st : WhState) (now : ℚ)
    (input : DecodeResult) :
    (on_recv secret st now input).2.queue = st.queue ∨
    ∃ pkg inner, input = .ok pkg ∧ pkg.s = some 0 ∧ pkg.d = some inner ∧
      (on_recv secret st now input).2.queue = st.queue ++ [inner] := by
  rcases input with _ | _ | pkg
  · left; rfl
  · left; rfl
  · rcases hd : pkg.d with _ | inner
    · left; simp [on_recv, hd]
    · rcases hv : inner.verify_token with _ | tok
      · left; simp [on_recv, hd, hv]
      · by_cases ht : tok = secret
        · subst ht
          by_cases hdup : (isDup st.ledger now pkg).1 = true
          · left; simp [on_recv, hd, hv, hdup]
          · rcases hs : pkg.s with _ | sig
            · left; simp [on_recv, hd, hv, hdup, hs]
            · by_cases hz : sig = 0
              · subst hz
                rcases hty : inner.type with _ | ty
                · left; simp [on_recv, hd, hv, hdup, hs, hty]
                · by_cases h255 : ty = 255
                  · subst h255
                    rcases hct : inner.channel_type with _ | ct
                    · left; simp [on_recv, hd, hv, hdup, hs, hty, hct]
                    · by_cases hwc : ct = "WEBHOOK_CHALLENGE"
                      · subst hwc
                        rcases hch : inner.challenge with _ | c
                        · left; simp [on_recv, hd, hv, hdup, hs, hty, hct, hch]
                        · left; simp [on_recv, hd, hv, hdup, hs, hty, hct, hch]
                      · right
                        exact ⟨pkg, inner, rfl, hs, hd, by
                          simp [on_recv, hd, hv, hdup, hs, hty, hct, hwc]⟩
                  · right
                    exact ⟨pkg, inner, rfl, hs, hd, by
                      simp [on_recv, hd, hv, hdup, hs, hty, h255]⟩
              · left; simp [on_recv, hd, hv, hdup, hs, hz]
        · left; simp [on_recv, hd, hv, ht]

/-- Over any sequence of deliveries the queue only grows, and everything
appended is the inner data of some delivered envelope with signal 0. -/
lemma runDeliveries_queue_origin (secret : String) (ds : List (ℚ × DecodeResult)) :
    ∀ st : WhState, ∃ extra,
      (runDeliveries secret st ds).queue = st.queue ++ extra ∧
      ∀ x ∈ extra, ∃ p ∈ ds, ∃ pkg, p.2 = DecodeResult.ok pkg ∧
        pkg.s = some 0 ∧ pkg.d = some x := by
  induction ds with
  | nil => intro st; exact ⟨[], by simp [runDeliveries_nil], by simp⟩
  | cons p ps ih =>
    intro st
    obtain ⟨extra, hq, hx⟩ := ih (on_recv secret st p.1 p.2).2
    rcases on_recv_queue_step secret st p.1 p.2 with h | ⟨pkg, inner, hin, hs, hd, h⟩
    · refine ⟨extra, ?_, ?_⟩
      · rw [runDeliveries_cons, hq, h]
      · intro x hmem
        obtain ⟨q, hq₁, rest⟩ := hx x hmem
        exact ⟨q, List.mem_cons_of_mem _ hq₁, rest⟩
    · refine ⟨inner :: extra, ?_, ?_⟩
      · rw [runDeliveries_cons, hq, h]
        simp
      · intro x hmem
        rcases List.mem_cons.mp hmem with hxeq | hmem₂
        · subst hxeq
          exact ⟨p, List.mem_cons_self p ps, pkg, hin, hs, hd⟩
        · obtain ⟨q, hq₁, rest⟩ := hx x hmem₂
          exact ⟨q, List.mem_cons_of_mem _ hq₁, rest⟩

end WebhookReceiver

open WebsocketReceiver WebhookReceiver

lemma runFrames_wellformed (pairs : List (Int × PkgData)) : ∀ st : WsState,
    runFrames st (pairs.map fun p => some ⟨some 0, some p.1, some p.2⟩)
      = ⟨pairs.foldl (fun _ p => p.1) st.newestSN, st.queue ++ pairs.map Prod.snd⟩ := by
  induction pairs with
  | nil =>
    intro st
    simp [runFrames_nil]
  | cons p ps ih =>
    intro st
    rw [List.map_cons, runFrames_cons]
    have hstep : processFrame st (some ⟨some 0, some p.1, some p.2⟩)
        = ⟨p.1, st.queue ++ [p.2]⟩ := by
      simp [processFrame]
    rw [hstep, ih]
    simp

/-- Claim C1: for every receiver (websocket and webhook) and every sequence of
inbound deliveries, only envelopes with signal 0 ever have data placed onto the
consumer-facing queue; an envelope with signal not 0 processed by the websocket
receive loop enqueues nothing (and leaves the state untouched). -/
theorem signal0_filter :
    (∀ (st : WsState) (pkg : Pkg) (sig : Int), pkg.s = some sig → sig ≠ 0 →
      processFrame st (some pkg) = st) ∧
    (∀ (st : WsState) (frames : List (Option Pkg)),
      (runFrames st frames).queue = st.queue ++ frames.filterMap frameData) ∧
    (∀ (frame : Option Pkg) (d : PkgData), frameData frame = some d →
      ∃ pkg, frame = some pkg ∧ pkg.s = some 0 ∧ pkg.d = some d) ∧
    (∀ (secret : String) (st : WhState) (ds : List (ℚ × DecodeResult)),
      ∃ extra, (runDeliveries secret st ds).queue = st.queue ++ extra ∧
        ∀ x ∈ extra, ∃ p ∈ ds, ∃ pkg, p.2 = DecodeResult.ok pkg ∧
          pkg.s = some 0 ∧ pkg.d = some x) :=
  ⟨fun st pkg sig hs hnz => processFrame_nonzero st pkg sig hs hnz,
   fun st frames => runFrames_queue frames st,
   fun _ _ h => frameData_some h,
   fun secret st ds => runDeliveries_queue_origin secret ds st⟩

theorem signal0_filter_witness :
    processFrame ⟨0, []⟩ (some ⟨some 2, some 5, none⟩) = ⟨0, []⟩ :=
  signal0_filter.1 ⟨0, []⟩ ⟨some 2, some 5, none⟩ 2 rfl (by decide)

/-- Claim C2: for every sequence of successfully decoded websocket frames with
signal 0, the receive loop updates `_NEWEST_SN` to each envelope's sequence
number and pushes exactly the envelope's `d` field (and nothing else) onto the
queue, in arrival order. -/
theorem ws_signal0_data_order (st : WsState) (pairs : List (Int × PkgData)) :
    (runFrames st (pairs.map fun p => some ⟨some 0, some p.1, some p.2⟩)).queue
      = st.queue ++ pairs.map Prod.snd ∧
    (runFrames st (pairs.map fun p => some ⟨some 0, some p.1, some p.2⟩)).newestSN
      = pairs.foldl (fun _ p => p.1) st.newestSN ∧
    ∀ sn d, processFrame st (some ⟨some 0, some sn, some d⟩)
      = ⟨sn, st.queue ++ [d]⟩ := by
  refine ⟨?_, ?_, ?_⟩
  · rw [runFrames_wellformed]
  · rw [runFrames_wellformed]
  · intro sn d
    simp [processFrame]

/-- Claim C8: every heartbeat message has exactly the form
`{'s': 2, 'sn': self._NEWEST_SN}`, and after the receive loop processes an
event envelope with sequence 42 the next heartbeat carries `sn = 42`. -/
theorem heartbeat_form (st : WsState) :
    heartbeat st = ⟨2, st.newestSN⟩ ∧
    ∀ d, heartbeat (processFrame st (some ⟨some 0, some 42, some d⟩)) = ⟨2, 42⟩ := by
  refine ⟨rfl, ?_⟩
  intro d
  simp [heartbeat, processFrame]

lemma on_recv_ledger_step (secret : String) (st : WhState) (now : ℚ)
    (input : DecodeResult) :
    (on_recv secret st now input).2.ledger = st.ledger ∨
    ∃ pkg, input = DecodeResult.ok pkg ∧
      (on_recv secret st now input).2.ledger = (isDup st.ledger now pkg).2 := by
  rcases input with _ | _ | pkg
  · left; rfl
  · left; rfl
  · rcases hd : pkg.d with _ | inner
    · left; simp [on_recv, hd]
    · rcases hv : inner.verify_token with _ | tok
      · left; simp [on_recv, hd, hv]
      · by_cases ht : tok = secret
        · subst ht
          right
          refine ⟨pkg, rfl, ?_⟩
          by_cases hdup : (isDup st.ledger now pkg).1 = true
          · simp [on_recv, hd, hv, hdup]
          · rcases hs : pkg.s with _ | sig
            · simp [on_recv, hd, hv, hdup, hs]
            · by_cases hz : sig = 0
              · subst hz
                rcases hty : inner.type with _ | ty
                · simp [on_recv, hd, hv, hdup, hs, hty]
                · by_cases h255 : ty = 255
                  · subst h255
                    rcases hct : inner.channel_type with _ | ct
                    · simp [on_recv, hd, hv, hdup, hs, hty, hct]
                    · by_cases hwc : ct = "WEBHOOK_CHALLENGE"
                      · subst hwc
                        rcases hch : inner.challenge with _ | c <;>
                          simp [on_recv, hd, hv, hdup, hs, hty, hct, hch]
                      · simp [on_recv, hd, hv, hdup, hs, hty, hct, hwc]
                  · simp [on_recv, hd, hv, hdup, hs, hty, h255]
              · simp [on_recv, hd, hv, hdup, hs, hz]
        · left; simp [on_recv, hd, hv, ht]

/-- Claim C4: `_is_dup` classifies an envelope as a duplicate iff its sequence
key is in `sn_dup_map` and `now - last_seen <= 600`; on every non-duplicate
call with a sequence number the entry for that sequence is inserted or
refreshed to the current time; entries are never removed. -/
theorem is_dup_characterization (ledger : Ledger) (now : ℚ) (pkg : Pkg) :
    (∀ sn, pkg.sn = some sn →
      (((isDup ledger now pkg).1 = true) ↔
        ∃ t, ledgerLookup ledger sn = some t ∧ now - t ≤ 600) ∧
      ((isDup ledger now pkg).1 = false →
        (isDup ledger now pkg).2 = setEntry ledger sn now)) ∧
    (∀ k, (ledgerLookup ledger k).isSome = true →
      (ledgerLookup (isDup ledger now pkg).2 k).isSome = true) := by
  constructor
  · intro sn hsn
    rcases hl : ledgerLookup ledger sn with _ | t
    · refine ⟨?_, ?_⟩
      · constructor
        · intro h
          exfalso
          simp [isDup, hsn, hl] at h
        · rintro ⟨t, ht, -⟩
          exact absurd ht (by simp)
      · intro _
        simp [isDup, hsn, hl]
    · by_cases hle : now - t ≤ 600
      · refine ⟨?_, ?_⟩
        · constructor
          · intro _
            exact ⟨t, rfl, hle⟩
          · intro _
            simp [isDup, hsn, hl, hle]
        · intro hfalse
          exfalso
          simp [isDup, hsn, hl, hle] at hfalse
      · refine ⟨?_, ?_⟩
        · constructor
          · intro htrue
            exfalso
            simp [isDup, hsn, hl, hle] at htrue
          · rintro ⟨t₁, ht₁, hle₁⟩
            obtain rfl : t = t₁ := by simpa using ht₁
            exact absurd hle₁ hle
        · intro _
          simp [isDup, hsn, hl, hle]
  · intro k hk
    rcases hsn : pkg.sn with _ | sn
    · simpa [isDup, hsn] using hk
    · rcases hl : ledgerLookup ledger sn with _ | t
      · rw [show (isDup ledger now pkg).2 = setEntry ledger sn now by
            simp [isDup, hsn, hl]]
        rw [ledgerLookup_setEntry]
        by_cases hk₂ : sn = k
        · simp [hk₂]
        · simpa [hk₂] using hk
      · by_cases hle : now - t ≤ 600
        · simpa [isDup, hsn, hl, hle] using hk
        · rw [show (isDup ledger now pkg).2 = setEntry ledger sn now by
              simp [isDup, hsn, hl, hle]]
          rw [ledgerLookup_setEntry]
          by_cases hk₂ : sn = k
          · simp [hk₂]
          · simpa [hk₂] using hk

theorem is_dup_characterization_witness :
    (isDup [(1, 0)] 10 ⟨none, some 1, none⟩).1 = true :=
  (((is_dup_characterization [(1, 0)] 10 ⟨none, some 1, none⟩).1 1 rfl).1).mpr
    ⟨0, by norm_num [ledgerLookup], by norm_num⟩

/-- Claim C9: when `_is_dup` classifies a delivery as a duplicate it leaves
`sn_dup_map` entirely unchanged, so a later call with the same envelope behaves
exactly as if the duplicate had never been received (repeated duplicates do not
extend the window). -/
theorem dup_leaves_ledger_unchanged (ledger : Ledger) (now : ℚ) (pkg : Pkg)
    (h : (isDup ledger now pkg).1 = true) :
    (isDup ledger now pkg).2 = ledger ∧
    ∀ later : ℚ, isDup (isDup ledger now pkg).2 later pkg = isDup ledger later pkg := by
  refine ⟨isDup_true_ledger h, fun later => by rw [isDup_true_ledger h]⟩

theorem dup_leaves_ledger_unchanged_witness :
    (isDup [(1, 0)] 10 ⟨none, some 1, none⟩).2 = [(1, 0)] :=
  (dup_leaves_ledger_unchanged [(1, 0)] 10 ⟨none, some 1, none⟩
    (by norm_num [isDup, ledgerLookup])).1

/-- Claim C10: a decoded webhook envelope with no `sn` key is never classified
as a duplicate and `_is_dup` leaves `sn_dup_map` unchanged, so such a delivery
is processed without ever being recorded in the ledger. -/
theorem missing_sn_never_dup :
    (∀ (ledger : Ledger) (now : ℚ) (pkg : Pkg), pkg.sn = none →
      isDup ledger now pkg = (false, ledger)) ∧
    (∀ (secret : String) (st : WhState) (now : ℚ) (pkg : Pkg),
      pkg.sn = none →
      (on_recv secret st now (.ok pkg)).2.ledger = st.ledger) := by
  constructor
  · intro ledger now pkg hsn
    simp [isDup, hsn]
  · intro secret st now pkg hsn
    rcases on_recv_ledger_step secret st now (.ok pkg) with h | ⟨pkg₁, hin, h⟩
    · exact h
    · obtain rfl : pkg = pkg₁ := by simpa using hin
      rw [h]
      simp [isDup, hsn]

theorem missing_sn_never_dup_witness :
    isDup [(1, 0)] 10 ⟨some 0, none, none⟩ = (false, [(1, 0)]) :=
  missing_sn_never_dup.1 [(1, 0)] 10 ⟨some 0, none, none⟩ rfl

/-- Claim C5: a webhook delivery whose decoded inner `verify_token` differs
from the configured secret gets an empty success response, nothing is enqueued,
and the dedup ledger is neither consulted nor modified — the whole receiver
state is returned untouched, whatever the rest of the payload holds. -/
theorem token_mismatch_rejected (secret : String) (st : WhState) (now : ℚ)
    (pkg : Pkg) (inner : PkgData) (tok : String)
    (hd : pkg.d = some inner) (hv : inner.verify_token = some tok)
    (hne : tok ≠ secret) :
    on_recv secret st now (.ok pkg) = (.empty, st) := by
  simp [on_recv, hd, hv, hne]

theorem token_mismatch_rejected_witness :
    on_recv "secret" ⟨[(3, 5)], []⟩ 7
        (.ok ⟨some 0, some 3, some ⟨some "bad", none, none, none⟩⟩)
      = (.empty, ⟨[(3, 5)], []⟩) :=
  token_mismatch_rejected "secret" ⟨[(3, 5)], []⟩ 7
    ⟨some 0, some 3, some ⟨some "bad", none, none, none⟩⟩
    ⟨some "bad", none, none, none⟩ "bad" rfl rfl (by decide)

/-- Claim C3 fails as stated: it quantifies over every delivery that passes
decoding and token verification, but a pair of such deliveries whose signal is
not 0 (here signal 2, a heartbeat-style envelope with a valid token and
sequence 7, delivered at times 0 and 10, i.e. within the 600 second window)
puts zero events on the queue, not exactly one. -/
theorem webhook_dedup_window_cex :
    (⟨some "sec", none, none, none⟩ : PkgData).verify_token = some "sec" ∧
    (runDeliveries "sec" ⟨[], []⟩
      [(0, .ok ⟨some 2, some 7, some ⟨some "sec", none, none, none⟩⟩),
       (10, .ok ⟨some 2, some 7, some ⟨some "sec", none, none, none⟩⟩)]).queue.length
      = 0 := by
  constructor
  · rfl
  · norm_num [runDeliveries, on_recv, isDup, ledgerLookup, setEntry]

/-- Claim C3 (amended): for every webhook delivery that passes decoding and
token verification and is a normal event (signal 0 and inner type tag other
than 255), a second delivery bearing the same sequence number within 600
seconds of the first puts exactly one event on the queue, while a second
delivery more than 600 seconds after the first puts two events on the queue. -/
theorem webhook_dedup_window (secret : String) (sn : Int) (inner : PkgData)
    (ty : Int) (t₁ t₂ : ℚ)
    (hv : inner.verify_token = some secret) (hty : inner.type = some ty)
    (h255 : ty ≠ 255) :
    ((t₂ - t₁ ≤ 600) →
      (runDeliveries secret ⟨[], []⟩
        [(t₁, .ok ⟨some 0, some sn, some inner⟩),
         (t₂, .ok ⟨some 0, some sn, some inner⟩)]).queue = [inner]) ∧
    (¬(t₂ - t₁ ≤ 600) →
      (runDeliveries secret ⟨[], []⟩
        [(t₁, .ok ⟨some 0, some sn, some inner⟩),
         (t₂, .ok ⟨some 0, some sn, some inner⟩)]).queue = [inner, inner]) := by
  have h1 : on_recv secret ⟨[], []⟩ t₁ (.ok ⟨some 0, some sn, some inner⟩)
      = (.empty, ⟨[(sn, t₁)], [inner]⟩) := by
    simp [on_recv, hv, hty, h255, isDup, ledgerLookup, setEntry]
  constructor
  · intro hin
    have h2 : on_recv secret ⟨[(sn, t₁)], [inner]⟩ t₂
        (.ok ⟨some 0, some sn, some inner⟩)
        = (.empty, ⟨[(sn, t₁)], [inner]⟩) := by
      simp [on_recv, hv, isDup, ledgerLookup, hin]
    show (on_recv secret (on_recv secret ⟨[], []⟩ t₁
        (.ok ⟨some 0, some sn, some inner⟩)).2 t₂
        (.ok ⟨some 0, some sn, some inner⟩)).2.queue = [inner]
    rw [h1, h2]
  · intro hout
    have h2 : on_recv secret ⟨[(sn, t₁)], [inner]⟩ t₂
        (.ok ⟨some 0, some sn, some inner⟩)
        = (.empty, ⟨[(sn, t₂)], [inner, inner]⟩) := by
      simp [on_recv, hv, hty, h255, isDup, ledgerLookup, setEntry, hout]
    show (on_recv secret (on_recv secret ⟨[], []⟩ t₁
        (.ok ⟨some 0, some sn, some inner⟩)).2 t₂
        (.ok ⟨some 0, some sn, some inner⟩)).2.queue = [inner, inner]
    rw [h1, h2]

theorem webhook_dedup_window_witness :
    (runDeliveries "sec" ⟨[], []⟩
      [(0, .ok ⟨some 0, some 7, some ⟨some "sec", some 1, none, none⟩⟩),
       (10, .ok ⟨some 0, some 7, some ⟨some "sec", some 1, none, none⟩⟩)]).queue
      = [⟨some "sec", some 1, none, none⟩] :=
  (webhook_dedup_window "sec" 7 ⟨some "sec", some 1, none, none⟩ 1 0 10
    rfl rfl (by decide)).1 (by norm_num)

/-- Claim C6 fails as stated: the `try` in `on_recv` covers only the
read/decompress/decode block, so a successfully decoded non-empty envelope
that lacks the `'d'` key (here the dictionary holding only `'s': 0`) raises
`KeyError` at `pkg['d']['verify_token']`, and the exception escapes the handler
to the HTTP runtime instead of producing an empty 200 response. -/
theorem webhook_error_containment_cex :
    on_recv "sec" ⟨[], []⟩ 0 (.ok ⟨some 0, none, none⟩) = (.error, ⟨[], []⟩) ∧
    WhResponse.error ≠ WhResponse.empty := by
  exact ⟨rfl, by decide⟩

/-- Claim C6 (amended): for every inbound webhook request, the failure modes
decompression/decode failure, empty decoded body, token mismatch, and
duplicate sequence each produce an empty HTTP 200 response and leave the
receiver state untouched; however a malformed envelope that decodes to a
non-empty dictionary missing an expected key raises an exception that escapes
the handler to the HTTP runtime. -/
theorem webhook_error_containment (secret : String) (st : WhState) (now : ℚ) :
    (on_recv secret st now .fail = (.empty, st)) ∧
    (on_recv secret st now .emptyPkg = (.empty, st)) ∧
    (∀ pkg inner tok, pkg.d = some inner → inner.verify_token = some tok →
      tok ≠ secret → on_recv secret st now (.ok pkg) = (.empty, st)) ∧
    (∀ pkg inner, pkg.d = some inner → inner.verify_token = some secret →
      (isDup st.ledger now pkg).1 = true →
      on_recv secret st now (.ok pkg) = (.empty, st)) ∧
    (∀ pkg, pkg.d = none → on_recv secret st now (.ok pkg) = (.error, st)) := by
  refine ⟨rfl, rfl, ?_, ?_, ?_⟩
  · intro pkg inner tok hd hv hne
    simp [on_recv, hd, hv, hne]
  · intro pkg inner hd hv hdup
    have hled := isDup_true_ledger hdup
    simp [on_recv, hd, hv, hdup, hled]
  · intro pkg hd
    simp [on_recv, hd]

theorem webhook_error_containment_witness :
    on_recv "sec" ⟨[], []⟩ 0
        (.ok ⟨some 0, some 1, some ⟨some "bad", none, none, none⟩⟩)
      = (.empty, ⟨[], []⟩) :=
  (webhook_error_containment "sec" ⟨[], []⟩ 0).2.2.1
    ⟨some 0, some 1, some ⟨some "bad", none, none, none⟩⟩
    ⟨some "bad", none, none, none⟩ "bad" rfl rfl (by decide)

/-- Claim C7 fails as stated: it quantifies over every webhook delivery whose
inner data is a well-formed challenge, but such a delivery whose
`verify_token` does not match the configured secret is answered with an empty
response, not with a JSON body echoing the challenge. -/
theorem challenge_echo_cex :
    (on_recv "right" ⟨[], []⟩ 0
        (.ok ⟨some 0, some 1,
          some ⟨some "wrong", some 255, some "WEBHOOK_CHALLENGE", some "abc123"⟩⟩)).1
      = WhResponse.empty ∧
    WhResponse.empty ≠ WhResponse.challengeResp "abc123" := by
  exact ⟨rfl, by decide⟩

/-- Claim C7 (amended): for every webhook delivery with signal 0 whose inner
data has type tag 255, channel type "WEBHOOK_CHALLENGE" and a challenge value,
and which passes token verification and is not classified as a duplicate, the
handler responds with a JSON body echoing exactly that challenge value and
places nothing on the queue. -/
theorem challenge_echo (secret : String) (st : WhState) (now : ℚ) (pkg : Pkg)
    (inner : PkgData) (c : String)
    (hs : pkg.s = some 0) (hd : pkg.d = some inner)
    (hv : inner.verify_token = some secret)
    (hty : inner.type = some 255)
    (hct : inner.channel_type = some "WEBHOOK_CHALLENGE")
    (hch : inner.challenge = some c)
    (hdup : (isDup st.ledger now pkg).1 = false) :
    on_recv secret st now (.ok pkg)
      = (.challengeResp c, ⟨(isDup st.ledger now pkg).2, st.queue⟩) := by
  simp [on_recv, hd, hv, hs, hty, hct, hch, hdup]

theorem challenge_echo_witness :
    on_recv "sec" ⟨[], []⟩ 0
        (.ok ⟨some 0, some 1,
          some ⟨some "sec", some 255, some "WEBHOOK_CHALLENGE", some "abc123"⟩⟩)
      = (.challengeResp "abc123",
         ⟨(isDup [] 0 ⟨some 0, some 1,
             some ⟨some "sec", some 255, some "WEBHOOK_CHALLENGE", some "abc123"⟩⟩).2,
          []⟩) :=
  challenge_echo "sec" ⟨[], []⟩ 0
    ⟨some 0, some 1, some ⟨some "sec", some 255, some "WEBHOOK_CHALLENGE", some "abc123"⟩⟩
    ⟨some "sec", some 255, some "WEBHOOK_CHALLENGE", some "abc123"⟩ "abc123"
    rfl rfl rfl rfl rfl rfl (by norm_num [isDup, ledgerLookup])
